import Mathlib

/-!
Verification of the asynchronous self-logging subsystem of the
dw-demo-log-query-system backend: a shallow embedding of
`backend/loki_client.py` (the transport client `push_log`) and
`backend/logger.py` (the dispatcher `LokiLogger` with its label resolver,
background push task and local fallback sink), together with theorems
checking the specification's claims about them.

Modelling conventions:
- Python `dict[str, str]` label mappings become association lists
  (`List (String × String)`); the code never merges or reorders them, so
  literal list equality matches the dict identity the code preserves.
- The single blocking HTTP POST performed by `requests.post` followed by
  `response.raise_for_status()` is driven by an oracle `HttpOutcome`
  describing the one network event: a response with a status code, a
  connection failure, or a timeout.  `raise_for_status` raises exactly for
  statuses 400–599 (the `requests` library contract); connection failures
  and timeouts are `RequestException`s as well.
- Python exceptions become an explicit `PyExn` value; a function that can
  raise returns `PyResult`.
- The wall-clock nanosecond timestamp `int(datetime.now().timestamp() * 1e9)`
  is a `Nat` parameter `nowNs`; `str(...)` of it is `toString nowNs`.
- Writes to the local fallback logger are recorded as `(Severity, text)`
  pairs, in order; severity is the `logging.Logger` method invoked.
-/

namespace LogQuery

/-- Severity of a write to the local fallback logger: which method of the
`logging.Logger` object is invoked. -/
inductive Severity where
  | debug
  | info
  | warning
  | error
  | critical
deriving DecidableEq, Repr

/-- Label mapping attached to a log record (a Python `dict[str, str]`). -/
abbrev Labels := List (String × String)

/-- Python exceptions that the embedded code can raise:
`LokiClientError(msg)` from `loki_client.py`, and the `ValueError` raised by
unpacking a 1-element `split` result into two names. -/
inductive PyExn where
  | lokiClientError (msg : String)
  | valueError (msg : String)
deriving DecidableEq, Repr

/-- Result of running a Python function that may raise. -/
inductive PyResult (α : Type) where
  | ok (a : α)
  | exn (e : PyExn)
deriving DecidableEq, Repr

/-- The one network event seen by `requests.post(url, json=payload, ...)`:
either a response with a status code, or a `ConnectionError`, or a
`Timeout` (both subclasses of `RequestException`), each carrying the
library's message text. -/
inductive HttpOutcome where
  | response (status : Nat)
  | connError (cause : String)
  | timeout (cause : String)
deriving DecidableEq, Repr

/-- Embeds `response.raise_for_status()`: the `requests` library raises an
`HTTPError` exactly for status codes 400–599, with a client/server error
message (the reason phrase and URL of the library's message are elided). -/
def raiseForStatusError (status : Nat) : Option String :=
  if 400 ≤ status ∧ status < 500 then some (toString status ++ " Client Error")
  else if 500 ≤ status ∧ status < 600 then some (toString status ++ " Server Error")
  else none

/-- The `RequestException` message produced by the POST plus
`raise_for_status`, if any: connection failures and timeouts always raise,
responses raise exactly for 400–599. -/
def requestError : HttpOutcome → Option String
  | .connError cause => some cause
  | .timeout cause => some cause
  | .response status => raiseForStatusError status

/-- Split a character list at the first occurrence of `c`:
`some (before, after)` when `c` occurs, `none` otherwise. -/
def splitFirstAux (c : Char) : List Char → Option (List Char × List Char)
  | [] => none
  | x :: xs =>
    if x = c then some ([], xs)
    else (splitFirstAux c xs).map fun p => (x :: p.1, p.2)

/-- Embeds Python `s.split(c, 1)` restricted to the information the code
uses: `some (key, value)` when the separator occurs (split at its first
occurrence), `none` when the separator is absent (Python returns the
1-element list `[s]`, which the callers either detect with `c in s` or
crash unpacking). -/
def splitFirst (c : Char) (s : String) : Option (String × String) :=
  (splitFirstAux c s.data).map fun p => (String.mk p.1, String.mk p.2)

/-- One Loki stream object of the push payload: a `stream` label mapping
and a list of `values` tuples `(timestamp_ns, line)`. -/
structure LokiStream where
  stream : Labels
  values : List (String × String)
deriving DecidableEq, Repr

/-- The JSON body POSTed to the Loki push endpoint:
`{"streams": [...]}`. -/
structure LokiPayload where
  streams : List LokiStream
deriving DecidableEq, Repr

/-- The payload `push_log` builds: one stream holding the label mapping and
a single values tuple `[str(timestamp_ns), "[" + level + "] " + message]`. -/
def buildPayload (nowNs : Nat) (message level : String) (labels : Labels) : LokiPayload :=
  { streams := [ { stream := labels,
                   values := [(toString nowNs, "[" ++ level ++ "] " ++ message)] } ] }

/-- Trace of one `push_log` call: the payloads actually handed to
`requests.post` (one per delivery attempt), and the call's result. -/
structure PushTrace where
  posts : List LokiPayload
  result : PyResult Bool
deriving DecidableEq, Repr

/-- The tail of `push_log` after the labels are settled: build the payload,
POST it once, return `True` on a quiet `raise_for_status`, wrap any
`RequestException` into `LokiClientError("Failed to push log to Loki: ...")`. -/
def postAndWrap (http : HttpOutcome) (nowNs : Nat) (message level : String)
    (labels : Labels) : PushTrace :=
  match requestError http with
  | none => { posts := [buildPayload nowNs message level labels], result := .ok true }
  | some cause =>
      { posts := [buildPayload nowNs message level labels],
        result := .exn (.lokiClientError ("Failed to push log to Loki: " ++ cause)) }

/-- Embeds `loki_client.push_log(message, level, labels)`.  When `labels` is
`None` it re-derives the default pair with
`key, value = config.DEFAULT_LABEL.split(':', 1)` — an unpacking that
raises a bare `ValueError` (not caught by the `RequestException` handler)
when the configured string has no `:`.  `defaultLabelCfg` is
`config.DEFAULT_LABEL` and `nowNs` the current wall clock in nanoseconds. -/
def push_log (http : HttpOutcome) (nowNs : Nat) (defaultLabelCfg : String)
    (message level : String) (labels : Option Labels) : PushTrace :=
  match labels with
  | some ls => postAndWrap http nowNs message level ls
  | none =>
    match splitFirst ':' defaultLabelCfg with
    | some (key, value) => postAndWrap http nowNs message level [(key, value)]
    | none =>
        { posts := [],
          result := .exn (.valueError "not enough values to unpack (expected 2, got 1)") }

/-- Embeds `LokiLogger._parse_default_label`: if the configured string
contains `:`, split at the first `:` into key and value; otherwise the
whole string becomes the value under the generic key `label`. -/
def parse_default_label (defaultLabelCfg : String) : Labels :=
  match splitFirst ':' defaultLabelCfg with
  | some (key, value) => [(key, value)]
  | none => [("label", defaultLabelCfg)]

/-- The dispatcher: holds the default label mapping computed once at
construction. -/
structure LokiLogger where
  default_labels : Labels
deriving DecidableEq, Repr

/-- Embeds `LokiLogger.__init__`, which sets
`self.default_labels = self._parse_default_label()`. -/
def LokiLogger.init (defaultLabelCfg : String) : LokiLogger :=
  { default_labels := parse_default_label defaultLabelCfg }

/-- Embeds Python `level.lower()` (the level strings in play are ASCII). -/
def lowerAscii (s : String) : String :=
  String.mk (s.data.map Char.toLower)

/-- Embeds `getattr(local_logger, level.lower(), local_logger.info)`
restricted to the names of the `logging.Logger` single-argument log
methods (`debug`, `info`, `warning`/`warn`, `error`/`exception`,
`critical`/`fatal`); any other string takes the `getattr` default
`local_logger.info`.  (Logger attributes that are not log methods are
outside the embedding; the dispatcher only ever reaches this with one of
the four standard level names.) -/
def resolveLocalMethod (level : String) : Severity :=
  match lowerAscii level with
  | "debug" => .debug
  | "info" => .info
  | "warning" => .warning
  | "warn" => .warning
  | "error" => .error
  | "exception" => .error
  | "critical" => .critical
  | "fatal" => .critical
  | _ => .info

/-- Trace of one run of the background unit `push_task`: payloads handed to
the transport, writes to the local fallback logger (in order), and any
exception the task's `try/except LokiClientError` did not catch. -/
structure TaskTrace where
  posts : List LokiPayload
  fallbackWrites : List (Severity × String)
  uncaught : Option PyExn
deriving DecidableEq, Repr

/-- Embeds the closure `push_task` inside `LokiLogger._push_to_loki_async`:
select `labels` when supplied, else the dispatcher's `default_labels`;
call `push_log`; on `LokiClientError` write a warning describing the
failure to the local logger, then the original message through the method
named by the level; any other exception escapes the `except` clause. -/
def push_task (http : HttpOutcome) (nowNs : Nat) (defaultLabelCfg : String)
    (message level : String) (labels : Option Labels)
    (default_labels : Labels) : TaskTrace :=
  let log_labels := match labels with
    | some ls => ls
    | none => default_labels
  let tr := push_log http nowNs defaultLabelCfg message level (some log_labels)
  match tr.result with
  | .ok _ => { posts := tr.posts, fallbackWrites := [], uncaught := none }
  | .exn (.lokiClientError msg) =>
      { posts := tr.posts,
        fallbackWrites :=
          [(.warning, "Failed to push log to Loki, logged locally: " ++ msg),
           (resolveLocalMethod level, message)],
        uncaught := none }
  | .exn e => { posts := tr.posts, fallbackWrites := [], uncaught := some e }

/-- What one dispatcher logging call produces: the value returned to the
caller (the thread is started and the method returns `None` — no exception
from the background unit can reach the caller), the dispatcher state after
the call, and the trace of the scheduled background unit once it runs. -/
structure DispatchResult where
  callerResult : PyResult Unit
  finalState : LokiLogger
  task : TaskTrace
deriving DecidableEq, Repr

/-- Embeds `LokiLogger._push_to_loki_async`: schedule `push_task` on a
daemon thread and return immediately.  The object is not mutated. -/
def LokiLogger.push_to_loki_async (self : LokiLogger) (http : HttpOutcome)
    (nowNs : Nat) (defaultLabelCfg : String) (message level : String)
    (labels : Option Labels) : DispatchResult :=
  { callerResult := .ok (),
    finalState := self,
    task := push_task http nowNs defaultLabelCfg message level labels self.default_labels }

/-- Embeds `LokiLogger.debug`. -/
def LokiLogger.debug (self : LokiLogger) (http : HttpOutcome) (nowNs : Nat)
    (defaultLabelCfg message : String) (labels : Option Labels) : DispatchResult :=
  self.push_to_loki_async http nowNs defaultLabelCfg message "DEBUG" labels

/-- Embeds `LokiLogger.info`. -/
def LokiLogger.info (self : LokiLogger) (http : HttpOutcome) (nowNs : Nat)
    (defaultLabelCfg message : String) (labels : Option Labels) : DispatchResult :=
  self.push_to_loki_async http nowNs defaultLabelCfg message "INFO" labels

/-- Embeds `LokiLogger.warning`. -/
def LokiLogger.warning (self : LokiLogger) (http : HttpOutcome) (nowNs : Nat)
    (defaultLabelCfg message : String) (labels : Option Labels) : DispatchResult :=
  self.push_to_loki_async http nowNs defaultLabelCfg message "WARNING" labels

/-- Embeds `LokiLogger.error`. -/
def LokiLogger.error (self : LokiLogger) (http : HttpOutcome) (nowNs : Nat)
    (defaultLabelCfg message : String) (labels : Option Labels) : DispatchResult :=
  self.push_to_loki_async http nowNs defaultLabelCfg message "ERROR" labels

/-! ## Helper lemmas -/

theorem splitFirstAux_eq_none (c : Char) (l : List Char) (h : c ∉ l) :
    splitFirstAux c l = none := by
  induction l with
  | nil => rfl
  | cons x xs ih =>
    simp only [List.mem_cons, not_or] at h
    simp [splitFirstAux, Ne.symm h.1, ih h.2]

theorem splitFirstAux_eq_some (c : Char) (l : List Char) (h : c ∈ l) :
    splitFirstAux c l =
      some (l.takeWhile (fun x => x ≠ c), (l.dropWhile (fun x => x ≠ c)).tail) := by
  induction l with
  | nil => cases h
  | cons x xs ih =>
    by_cases hx : x = c
    · subst hx
      simp [splitFirstAux, List.takeWhile, List.dropWhile]
    · have hm : c ∈ xs := by
        rcases List.mem_cons.mp h with h1 | h1
        · exact absurd h1.symm hx
        · exact h1
      simp [splitFirstAux, hx, ih hm, List.takeWhile, List.dropWhile]

theorem splitFirst_eq_none (c : Char) (s : String) (h : c ∉ s.data) :
    splitFirst c s = none := by
  simp [splitFirst, splitFirstAux_eq_none c s.data h]

theorem splitFirst_eq_some (c : Char) (s : String) (h : c ∈ s.data) :
    splitFirst c s =
      some (String.mk (s.data.takeWhile (fun x => x ≠ c)),
            String.mk ((s.data.dropWhile (fun x => x ≠ c)).tail)) := by
  simp [splitFirst, splitFirstAux_eq_some c s.data h]

theorem digitChar_isDigit {m : Nat} (hm : m < 10) : (Nat.digitChar m).isDigit = true := by
  interval_cases m <;> decide

theorem toDigitsCore_all_isDigit (fuel : Nat) :
    ∀ (n : Nat) (acc : List Char), (∀ c ∈ acc, c.isDigit = true) →
      ∀ c ∈ Nat.toDigitsCore 10 fuel n acc, c.isDigit = true := by
  induction fuel with
  | zero =>
    intro n acc hacc
    simpa [Nat.toDigitsCore] using hacc
  | succ fuel ih =>
    intro n acc hacc c hc
    simp only [Nat.toDigitsCore] at hc
    by_cases h10 : n / 10 = 0
    · rw [if_pos h10] at hc
      rcases List.mem_cons.mp hc with h1 | h1
      · exact h1 ▸ digitChar_isDigit (Nat.mod_lt _ (by decide))
      · exact hacc c h1
    · rw [if_neg h10] at hc
      refine ih (n / 10) (Nat.digitChar (n % 10) :: acc) ?_ c hc
      intro d hd
      rcases List.mem_cons.mp hd with h1 | h1
      · exact h1 ▸ digitChar_isDigit (Nat.mod_lt _ (by decide))
      · exact hacc d h1

theorem toString_nat_all_isDigit (n : Nat) :
    ∀ c ∈ (toString n).data, c.isDigit = true := by
  show ∀ c ∈ (Nat.toDigits 10 n).asString.data, c.isDigit = true
  intro c hc
  exact toDigitsCore_all_isDigit (n + 1) n [] (by intro d hd; cases hd) c hc

/-- Full characterization of one run of the background unit: the transport
is attempted exactly once with the selected labels; on a quiet request the
fallback stays untouched, on a request exception the fallback gets the
warning about the failure followed by the original message through the
method named by the level; nothing escapes the task uncaught. -/
theorem push_task_eq (http : HttpOutcome) (nowNs : Nat) (cfg message level : String)
    (labels : Option Labels) (dls : Labels) :
    push_task http nowNs cfg message level labels dls =
      match requestError http with
      | none =>
          { posts := [buildPayload nowNs message level (labels.getD dls)],
            fallbackWrites := [], uncaught := none }
      | some cause =>
          { posts := [buildPayload nowNs message level (labels.getD dls)],
            fallbackWrites :=
              [(.warning,
                "Failed to push log to Loki, logged locally: "
                  ++ ("Failed to push log to Loki: " ++ cause)),
               (resolveLocalMethod level, message)],
            uncaught := none } := by
  cases labels <;> cases h : requestError http <;>
    simp [push_task, push_log, postAndWrap, h, Option.getD]

/-- The label sets carried by the payloads a task handed to the transport:
one list of stream label mappings per POST. -/
def labelSetsOf (t : TaskTrace) : List (List Labels) :=
  t.posts.map fun p => p.streams.map LokiStream.stream

theorem labelSetsOf_push_task (http : HttpOutcome) (nowNs : Nat)
    (cfg message level : String) (labels : Option Labels) (dls : Labels) :
    labelSetsOf (push_task http nowNs cfg message level labels dls) = [[labels.getD dls]] := by
  rw [push_task_eq]
  cases h : requestError http <;> simp [h, labelSetsOf, buildPayload]

theorem parse_default_label_ne_nil (cfg : String) : parse_default_label cfg ≠ [] := by
  rcases h : splitFirst ':' cfg with _ | ⟨k, v⟩ <;> simp [parse_default_label, h]

/-! ## Claims -/

/-- Property package used by claim C1 for one logging operation: one run of
its background unit makes exactly one transport delivery attempt, lets no
exception escape, and exactly one outcome occurs — the fallback logger is
untouched when the transport raised nothing, and when the transport raised
a delivery error the fallback logger receives exactly two writes, first a
warning describing the failure, then the original message text at the
call's original severity. -/
def deliversOnce (t : TaskTrace) (http : HttpOutcome) (sev : Severity)
    (message : String) : Prop :=
  t.posts.length = 1 ∧ t.uncaught = none ∧
  (requestError http = none → t.fallbackWrites = []) ∧
  (∀ cause, requestError http = some cause →
    t.fallbackWrites =
      [(Severity.warning,
        "Failed to push log to Loki, logged locally: "
          ++ ("Failed to push log to Loki: " ++ cause)),
       (sev, message)])

/-- C1: for every logging call (debug, info, warning, error) with any
message and any optional labels, the scheduled background unit makes
exactly one transport delivery attempt (no retry) and exactly one outcome
occurs: transport success with nothing written to the fallback sink, or a
delivery failure followed by exactly two fallback writes — a warning
describing the failure, then the original message at the call's original
severity with the original text. -/
theorem claim_C1 (self : LokiLogger) (http : HttpOutcome) (nowNs : Nat)
    (cfg message : String) (labels : Option Labels) :
    deliversOnce (self.debug http nowNs cfg message labels).task http .debug message ∧
    deliversOnce (self.info http nowNs cfg message labels).task http .info message ∧
    deliversOnce (self.warning http nowNs cfg message labels).task http .warning message ∧
    deliversOnce (self.error http nowNs cfg message labels).task http .error message := by
  have key : ∀ (level : String) (sev : Severity), resolveLocalMethod level = sev →
      deliversOnce (push_task http nowNs cfg message level labels self.default_labels)
        http sev message := by
    intro level sev hsev
    rw [deliversOnce, push_task_eq]
    cases h : requestError http <;> simp [h, hsev]
  exact ⟨key "DEBUG" .debug (by decide), key "INFO" .info (by decide),
         key "WARNING" .warning (by decide), key "ERROR" .error (by decide)⟩

/-- Witness for C1: a concrete failing delivery of `error "boom"` produces
the two fallback writes. -/
theorem claim_C1_witness :
    ((LokiLogger.init "app:main").error (.response 500) 3 "app:main" "boom" none).task.fallbackWrites =
      [(Severity.warning,
        "Failed to push log to Loki, logged locally: "
          ++ ("Failed to push log to Loki: " ++ "500 Server Error")),
       (Severity.error, "boom")] := by
  have h := claim_C1 (LokiLogger.init "app:main") (.response 500) 3 "app:main" "boom" none
  exact h.2.2.2.2.2.2 "500 Server Error" (by decide)

/-- C2: for every logging call, the label set delivered to the transport is
selected, never merged: with labels omitted the payload's label set equals
exactly the dispatcher's configured default pair; with explicit labels it
equals exactly the supplied mapping. -/
theorem claim_C2 (cfg : String) (http : HttpOutcome) (nowNs : Nat)
    (message : String) (labels : Option Labels) :
    (labels = none →
      labelSetsOf ((LokiLogger.init cfg).debug http nowNs cfg message labels).task =
          [[(LokiLogger.init cfg).default_labels]] ∧
      labelSetsOf ((LokiLogger.init cfg).info http nowNs cfg message labels).task =
          [[(LokiLogger.init cfg).default_labels]] ∧
      labelSetsOf ((LokiLogger.init cfg).warning http nowNs cfg message labels).task =
          [[(LokiLogger.init cfg).default_labels]] ∧
      labelSetsOf ((LokiLogger.init cfg).error http nowNs cfg message labels).task =
          [[(LokiLogger.init cfg).default_labels]]) ∧
    (∀ ls, labels = some ls →
      labelSetsOf ((LokiLogger.init cfg).debug http nowNs cfg message labels).task = [[ls]] ∧
      labelSetsOf ((LokiLogger.init cfg).info http nowNs cfg message labels).task = [[ls]] ∧
      labelSetsOf ((LokiLogger.init cfg).warning http nowNs cfg message labels).task = [[ls]] ∧
      labelSetsOf ((LokiLogger.init cfg).error http nowNs cfg message labels).task = [[ls]]) := by
  have key : ∀ level : String,
      labelSetsOf (push_task http nowNs cfg message level labels
          (LokiLogger.init cfg).default_labels) =
        [[labels.getD ((LokiLogger.init cfg).default_labels)]] :=
    fun level => labelSetsOf_push_task http nowNs cfg message level labels _
  constructor
  · intro h
    subst h
    exact ⟨key "DEBUG", key "INFO", key "WARNING", key "ERROR"⟩
  · intro ls h
    subst h
    exact ⟨key "DEBUG", key "INFO", key "WARNING", key "ERROR"⟩

/-- Witness for C2: with the configured string `app:main`, an `info` call
without labels delivers exactly the default pair, and one with explicit
labels delivers exactly those. -/
theorem claim_C2_witness :
    labelSetsOf ((LokiLogger.init "app:main").info (.response 204) 0 "app:main"
        "boot complete" none).task = [[[("app", "main")]]] ∧
    labelSetsOf ((LokiLogger.init "app:main").info (.response 204) 0 "app:main"
        "m" (some [("k", "v")])).task = [[[("k", "v")]]] := by
  have e : (LokiLogger.init "app:main").default_labels = [("app", "main")] := by decide
  constructor
  · have h := ((claim_C2 "app:main" (.response 204) 0 "boot complete" none).1 rfl).2.1
    rw [e] at h
    exact h
  · exact ((claim_C2 "app:main" (.response 204) 0 "m"
      (some [("k", "v")])).2 [("k", "v")] rfl).2.1

/-- Counterexample to C3 as stated: a 304 response is not a 2xx status,
yet `push_log` returns `True` instead of raising a transport error
(`raise_for_status` only raises for 400–599). -/
theorem claim_C3_counterexample :
    (push_log (.response 304) 0 "app:main" "m" "INFO" (some [("app", "main")])).result =
      .ok true ∧ ¬ (200 ≤ 304 ∧ 304 < 300) := by decide

/-- C3 (amended): given an explicit label mapping, `push_log` returns
`True` exactly when the POST raises no request exception — that is, when
the response status lies outside 400–599 (every 2xx included, but also
1xx/3xx); on connection failure, timeout, or a 4xx/5xx status it raises a
`LokiClientError` carrying the underlying cause in its message; it raises
in no other case and never returns `False`. -/
theorem claim_C3_amended (http : HttpOutcome) (nowNs : Nat)
    (cfg message level : String) (ls : Labels) :
    ((push_log http nowNs cfg message level (some ls)).result = .ok true ↔
      requestError http = none) ∧
    (∀ b, (push_log http nowNs cfg message level (some ls)).result = .ok b → b = true) ∧
    (∀ cause, requestError http = some cause →
      (push_log http nowNs cfg message level (some ls)).result =
        .exn (.lokiClientError ("Failed to push log to Loki: " ++ cause))) ∧
    (∀ e, (push_log http nowNs cfg message level (some ls)).result = .exn e →
      ∃ cause, requestError http = some cause ∧
        e = .lokiClientError ("Failed to push log to Loki: " ++ cause)) ∧
    (∀ status, requestError (.response status) = none ↔ ¬ (400 ≤ status ∧ status < 600)) ∧
    (∀ cause, requestError (.connError cause) = some cause ∧
      requestError (.timeout cause) = some cause) := by
  refine ⟨?_, ?_, ?_, ?_, ?_, fun cause => ⟨rfl, rfl⟩⟩
  · cases h : requestError http <;> simp [push_log, postAndWrap, h]
  · intro b
    cases h : requestError http <;> simp [push_log, postAndWrap, h]
  · intro cause h
    simp [push_log, postAndWrap, h]
  · intro e hres
    cases h : requestError http with
    | none => simp [push_log, postAndWrap, h] at hres
    | some cause =>
      simp [push_log, postAndWrap, h] at hres
      exact ⟨cause, rfl, hres.symm⟩
  · intro status
    simp only [requestError, raiseForStatusError]
    by_cases h1 : 400 ≤ status ∧ status < 500
    · simp [h1]
      omega
    · by_cases h2 : 500 ≤ status ∧ status < 600
      · simp [h1, h2]
        omega
      · simp [h1, h2]
        omega

/-- Witness for C3 (amended): a concrete 500 response raises the wrapped
`LokiClientError`, and a 204 response returns `True`. -/
theorem claim_C3_amended_witness :
    (push_log (.response 500) 0 "app:main" "m" "INFO" (some [("app", "main")])).result =
      .exn (.lokiClientError ("Failed to push log to Loki: " ++ "500 Server Error")) ∧
    (push_log (.response 204) 0 "app:main" "m" "INFO" (some [("app", "main")])).result =
      .ok true := by
  constructor
  · exact (claim_C3_amended (.response 500) 0 "app:main" "m" "INFO"
      [("app", "main")]).2.2.1 "500 Server Error" (by decide)
  · exact ((claim_C3_amended (.response 204) 0 "app:main" "m" "INFO"
      [("app", "main")]).1).mpr (by decide)

/-- C4: for every message, level and label mapping, the payload handed to
the POST is exactly one stream with exactly one values tuple, whose second
element is exactly the string `[LEVEL] message` and whose first element is
the decimal string of the wall-clock nanosecond timestamp, made of digits
only. -/
theorem claim_C4 (http : HttpOutcome) (nowNs : Nat) (cfg message level : String)
    (ls : Labels) :
    (push_log http nowNs cfg message level (some ls)).posts =
      [{ streams := [{ stream := ls,
                       values := [(toString nowNs, "[" ++ level ++ "] " ++ message)] }] }] ∧
    ∀ c ∈ (toString nowNs).data, c.isDigit = true := by
  refine ⟨?_, toString_nat_all_isDigit nowNs⟩
  cases h : requestError http <;> simp [push_log, postAndWrap, h, buildPayload]

/-- Witness for C4: the concrete payload of `push_log` at timestamp 42,
and the digit check on a character of `"42"`. -/
theorem claim_C4_witness :
    (push_log (.response 204) 42 "app:main" "hello" "INFO" (some [("app", "main")])).posts =
      [{ streams := [{ stream := [("app", "main")],
                       values := [("42", "[INFO] hello")] }] }] ∧
    Char.isDigit '4' = true := by
  have h := claim_C4 (.response 204) 42 "app:main" "hello" "INFO" [("app", "main")]
  constructor
  · have e : (toString (42 : Nat), "[" ++ "INFO" ++ "] " ++ "hello") = ("42", "[INFO] hello") := by
      decide
    rw [h.1, e]
  · exact h.2 '4' (by decide)

/-- Counterexample to C5 as stated: the dispatcher passes an explicitly
empty caller mapping through unchanged (`labels is not None`), so the
record delivered to the transport carries an empty label set. -/
theorem claim_C5_counterexample :
    labelSetsOf ((LokiLogger.init "app:main").info (.response 204) 0 "app:main"
        "m" (some ([] : Labels))).task = [[([] : Labels)]] := by decide

/-- C5 (amended): every record sent to the transport carries exactly one
label set — the caller-supplied mapping when one is given, otherwise the
default — never the two merged; the default label set is never empty, but
an explicitly empty caller-supplied mapping is passed through, so the
record's label set is empty in exactly that case. -/
theorem claim_C5_amended (cfg : String) (http : HttpOutcome) (nowNs : Nat)
    (message : String) (labels : Option Labels) :
    (LokiLogger.init cfg).default_labels ≠ [] ∧
    labelSetsOf ((LokiLogger.init cfg).debug http nowNs cfg message labels).task =
        [[labels.getD ((LokiLogger.init cfg).default_labels)]] ∧
    labelSetsOf ((LokiLogger.init cfg).info http nowNs cfg message labels).task =
        [[labels.getD ((LokiLogger.init cfg).default_labels)]] ∧
    labelSetsOf ((LokiLogger.init cfg).warning http nowNs cfg message labels).task =
        [[labels.getD ((LokiLogger.init cfg).default_labels)]] ∧
    labelSetsOf ((LokiLogger.init cfg).error http nowNs cfg message labels).task =
        [[labels.getD ((LokiLogger.init cfg).default_labels)]] := by
  refine ⟨parse_default_label_ne_nil cfg, ?_, ?_, ?_, ?_⟩ <;>
    exact labelSetsOf_push_task http nowNs cfg message _ labels _

/-- C6: the label resolver splits the configured string at its first `:`
into key and value when the separator occurs, and otherwise maps the whole
string under the generic key `label`; in particular `app:main` resolves to
the mapping `app` to `main`. -/
theorem claim_C6 (cfg : String) :
    (':' ∈ cfg.data →
      parse_default_label cfg =
        [(String.mk (cfg.data.takeWhile (fun x => x ≠ ':')),
          String.mk ((cfg.data.dropWhile (fun x => x ≠ ':')).tail))]) ∧
    (':' ∉ cfg.data → parse_default_label cfg = [("label", cfg)]) ∧
    parse_default_label "app:main" = [("app", "main")] := by
  refine ⟨?_, ?_, by decide⟩
  · intro h
    simp [parse_default_label, splitFirst_eq_some ':' cfg h]
  · intro h
    simp [parse_default_label, splitFirst_eq_none ':' cfg h]

/-- Witness for C6: both branches of the resolver at concrete configured
strings. -/
theorem claim_C6_witness :
    parse_default_label "app:main" = [("app", "main")] ∧
    parse_default_label "main" = [("label", "main")] :=
  ⟨(claim_C6 "app:main").2.2, (claim_C6 "main").2.1 (by decide)⟩

/-- C7: each of the four dispatcher operations, for every message and
optional label mapping and whatever the transport does, returns `None` to
the caller and surfaces no error — neither on the calling thread nor as an
exception escaping the background unit. -/
theorem claim_C7 (self : LokiLogger) (http : HttpOutcome) (nowNs : Nat)
    (cfg message : String) (labels : Option Labels) :
    ((self.debug http nowNs cfg message labels).callerResult = .ok () ∧
      (self.debug http nowNs cfg message labels).task.uncaught = none) ∧
    ((self.info http nowNs cfg message labels).callerResult = .ok () ∧
      (self.info http nowNs cfg message labels).task.uncaught = none) ∧
    ((self.warning http nowNs cfg message labels).callerResult = .ok () ∧
      (self.warning http nowNs cfg message labels).task.uncaught = none) ∧
    ((self.error http nowNs cfg message labels).callerResult = .ok () ∧
      (self.error http nowNs cfg message labels).task.uncaught = none) := by
  have key : ∀ level : String,
      (push_task http nowNs cfg message level labels self.default_labels).uncaught = none := by
    intro level
    rw [push_task_eq]
    cases h : requestError http <;> simp [h]
  exact ⟨⟨rfl, key "DEBUG"⟩, ⟨rfl, key "INFO"⟩, ⟨rfl, key "WARNING"⟩, ⟨rfl, key "ERROR"⟩⟩

/-- Counterexample to C8 as stated: the generic entry point accepts the
unknown severity string `NOT_A_LEVEL` and succeeds — no configuration or
validation error is raised eagerly. -/
theorem claim_C8_counterexample :
    (push_log (.response 204) 0 "app:main" "m" "NOT_A_LEVEL" (some [("app", "main")])).result =
      .ok true := by decide

/-- C8 (amended): the generic entry points perform no severity validation:
the outcome of `push_log` does not depend on the level string, which is
embedded verbatim in the formatted line; an unknown severity is not raised
eagerly as a configuration error but deferred — on the fallback path the
background unit resolves the level name dynamically and silently defaults
to the `info` sink method when the string names no sink method. -/
theorem claim_C8_amended (http : HttpOutcome) (nowNs : Nat)
    (cfg message level : String) (ls : Labels) :
    (push_log http nowNs cfg message level (some ls)).result =
      (push_log http nowNs cfg message "INFO" (some ls)).result ∧
    (push_log http nowNs cfg message level (some ls)).posts.map
        (fun p => p.streams.map fun st => st.values.map Prod.snd) =
      [[["[" ++ level ++ "] " ++ message]]] ∧
    resolveLocalMethod "NOT_A_LEVEL" = Severity.info := by
  refine ⟨?_, ?_, by decide⟩ <;>
    cases h : requestError http <;> simp [push_log, postAndWrap, h, buildPayload]

/-- C9: the default label mapping is computed once at construction and no
logging operation changes the dispatcher's state, on the success path or
the fallback path alike. -/
theorem claim_C9 (self : LokiLogger) (http : HttpOutcome) (nowNs : Nat)
    (cfg message : String) (labels : Option Labels) :
    (LokiLogger.init cfg).default_labels = parse_default_label cfg ∧
    (self.debug http nowNs cfg message labels).finalState = self ∧
    (self.info http nowNs cfg message labels).finalState = self ∧
    (self.warning http nowNs cfg message labels).finalState = self ∧
    (self.error http nowNs cfg message labels).finalState = self :=
  ⟨rfl, rfl, rfl, rfl, rfl⟩

/-- C10: called directly with labels absent, `push_log` re-derives the
default pair by splitting the configured string at its first `:`; when the
configured string has no `:`, the unpacking fails with a bare `ValueError`
that is not a `LokiClientError` and no POST happens — unlike the
dispatcher's resolver, which handles the missing separator with the
generic key. -/
theorem claim_C10 (cfg : String) (http : HttpOutcome) (nowNs : Nat)
    (message level : String) :
    (':' ∈ cfg.data →
      (push_log http nowNs cfg message level none).posts.map
          (fun p => p.streams.map LokiStream.stream) =
        [[[(String.mk (cfg.data.takeWhile (fun x => x ≠ ':')),
            String.mk ((cfg.data.dropWhile (fun x => x ≠ ':')).tail))]]]) ∧
    (':' ∉ cfg.data →
      (push_log http nowNs cfg message level none).result =
        .exn (.valueError "not enough values to unpack (expected 2, got 1)") ∧
      (push_log http nowNs cfg message level none).posts = [] ∧
      (∀ m, (push_log http nowNs cfg message level none).result ≠
        .exn (.lokiClientError m)) ∧
      parse_default_label cfg = [("label", cfg)]) := by
  constructor
  · intro h
    cases hr : requestError http <;>
      simp [push_log, splitFirst_eq_some ':' cfg h, postAndWrap, hr, buildPayload]
  · intro h
    have hs := splitFirst_eq_none ':' cfg h
    refine ⟨?_, ?_, ?_, ?_⟩ <;> simp [push_log, hs, parse_default_label]

/-- Witness for C10: the bare unpacking error at the separator-free
configured string `main`, and the re-derived default pair at `app:main`. -/
theorem claim_C10_witness :
    (push_log (.response 204) 0 "main" "m" "INFO" none).result =
      .exn (.valueError "not enough values to unpack (expected 2, got 1)") ∧
    (push_log (.response 204) 0 "app:main" "m" "INFO" none).posts.map
        (fun p => p.streams.map LokiStream.stream) = [[[("app", "main")]]] := by
  constructor
  · exact ((claim_C10 "main" (.response 204) 0 "m" "INFO").2 (by decide)).1
  · have h := (claim_C10 "app:main" (.response 204) 0 "m" "INFO").1 (by decide)
    have e : (String.mk ("app:main".data.takeWhile (fun x => x ≠ ':')),
        String.mk (("app:main".data.dropWhile (fun x => x ≠ ':')).tail)) = ("app", "main") := by
      decide
    rw [e] at h
    exact h

end LogQuery
